import Mathlib

/-!
Shallow embedding of the LLM_Learning repository (CrewAI flow scripts and
OpenAI agents scripts) for checking its natural-language specification.

The embedding models:
* the Pydantic schemas in `CREWAI_FLOW/test_flow/src/test_flow/schemas.py`
  (`AudienceLevel`, `UserInput`, `GeneratedResponse`, `EvaluatorResponse`);
* the flow steps of `HelloFlow` and the `kickoff` input loop in
  `CREWAI_FLOW/test_flow/src/test_flow/main.py`;
* Python `string.Template` substitution as used on the prompt templates in
  `CREWAI_FLOW/test_flow/src/test_flow/prompt.py`;
* the SendGrid mail tools (`SendMail._run` in `tools/send_email_tool.py`,
  `send_email` in `agents/2_openai/2_lab2_part3.py`, `send_html_email` in
  `agents/2_openai/3_lab3_part1.py`);
* the `OPENAI_API_KEY` startup check of `agents/2_openai/4_lab4_part1.py`;
* the `asyncio.gather` fan-out used in `2_lab2_part2.py` and `4_lab4_part1.py`.

External effects (the LLM call, the SendGrid HTTP call, file writes) are
passed in as explicit outcome parameters (`Except String _` for code whose
Python counterpart may raise); the Python exception text is the `String` in
the `error` constructor.
-/

/-! ## schemas.py -/

/-- Enum `AudienceLevel(str, Enum)` from `schemas.py`: the three allowed
audience levels. -/
inductive AudienceLevel where
  | beginner
  | intermediate
  | advanced
deriving DecidableEq, Repr

/-- The `.value` of each enum member (the string each member is defined as). -/
def AudienceLevel.value : AudienceLevel → String
  | .beginner => "beginner"
  | .intermediate => "intermediate"
  | .advanced => "advanced"

/-- Constructing `AudienceLevel(s)` from a string, as pydantic / Python Enum
does by value: succeeds exactly on the three member values, otherwise the
Python call raises `ValueError` (modelled as `none`). -/
def audienceLevelOfValue (s : String) : Option AudienceLevel :=
  if s = "beginner" then some .beginner
  else if s = "intermediate" then some .intermediate
  else if s = "advanced" then some .advanced
  else none

/-- Pydantic model `UserInput` from `schemas.py`. All three fields default to
`None`, hence `Option`. -/
structure UserInput where
  name : Option String := none
  audience_level : Option AudienceLevel := none
  topic : Option String := none
deriving DecidableEq, Repr

/-- Pydantic model `GeneratedResponse` from `schemas.py`:
`greeting_message : str`, `important_points : List[str]` (default `[]`),
`lecture_content : str`. -/
structure GeneratedResponse where
  greeting_message : String
  important_points : List String := []
  lecture_content : String
deriving DecidableEq, Repr

/-- Pydantic model `EvaluatorResponse` from `schemas.py`: an optional
dictionary from criterion name to a `conint(ge = 1, le = 10)` score.
The dictionary is modelled as an association list. -/
structure EvaluatorResponse where
  score_card : Option (List (String × Int)) := none
deriving DecidableEq, Repr

/-- The range check of `ConstrainedInt = conint(ge = 1, le = 10)`. -/
def constrainedIntOk (n : Int) : Bool :=
  1 ≤ n && n ≤ 10

/-- Pydantic validation on constructing `EvaluatorResponse(score_card = sc)`:
each value of the dictionary must pass the `conint(ge = 1, le = 10)` check,
otherwise construction raises a `ValidationError` (modelled as `.error`). -/
def mkEvaluatorResponse (sc : Option (List (String × Int))) :
    Except String EvaluatorResponse :=
  match sc with
  | none => .ok { score_card := none }
  | some m =>
      if m.all (fun kv => constrainedIntOk kv.2) then .ok { score_card := some m }
      else .error "ValidationError: score out of range 1..10"

/-! ## Python string helpers used by `kickoff` in `main.py` -/

/-- Python `str.strip()` default whitespace characters (ASCII part). -/
def pyIsSpace (c : Char) : Bool :=
  c = ' ' || c = '\t' || c = '\n' || c = '\x0d' || c = '\x0b' || c = '\x0c'

/-- Python `str.strip()`: remove leading and trailing whitespace. -/
def pyStrip (s : String) : String :=
  ⟨((s.toList.dropWhile pyIsSpace).reverse.dropWhile pyIsSpace).reverse⟩

/-- Python `str.lower()` (restricted to ASCII, which is all the enum values
use). -/
def pyLower (s : String) : String :=
  ⟨s.toList.map Char.toLower⟩

/-- The audience-level input loop of `kickoff` in `main.py`: read a line,
apply `.strip().lower()`, try `AudienceLevel(audience_input)`; on
`ValueError` print a message and re-prompt, otherwise break with the value.
The sequence of lines the user would type is passed as a list; `none` means
the user never typed a valid value. -/
def audienceLoop : List String → Option AudienceLevel
  | [] => none
  | i :: rest =>
      match audienceLevelOfValue (pyLower (pyStrip i)) with
      | some l => some l
      | none => audienceLoop rest

/-! ## Python `string.Template` (used in `main.py` on the prompts of
`prompt.py`)

`Template(tpl).substitute(mapping)` scans the template for `$`-placeholders
using the default pattern: `$$` is an escaped dollar, `$identifier` and
`${identifier}` are placeholders (identifier = `[_a-zA-Z][_a-zA-Z0-9]*`),
and any other `$`-sequence makes `substitute` raise `ValueError`; a
placeholder whose name is missing from the mapping makes `substitute` raise
`KeyError`. Both failure modes are modelled as `none`. -/

/-- One element of a scanned template: a literal character or a named
placeholder. -/
inductive Chunk where
  | lit (c : Char)
  | ph (name : String)
deriving DecidableEq, Repr

/-- First character of a Python `string.Template` identifier: `[_a-zA-Z]`. -/
def isIdStart (c : Char) : Bool :=
  c = '_' || (c.isAlpha && c.toNat < 128)

/-- Subsequent character of an identifier: `[_a-zA-Z0-9]`. -/
def isIdChar (c : Char) : Bool :=
  isIdStart c || c.isDigit

/-- Scanner state while reading the template. -/
inductive ScanMode where
  | norm
  | dollar
  | brace (acc : List Char)
  | named (acc : List Char)

/-- Scan a template into chunks (accumulated in reverse). `none` is Python
`Template.substitute` raising `ValueError` for an invalid `$`-sequence. -/
def scanT : List Char → ScanMode → List Chunk → Option (List Chunk)
  | [], .norm, acc => some acc.reverse
  | [], .dollar, _ => none
  | [], .brace _, _ => none
  | [], .named nacc, acc => some ((Chunk.ph ⟨nacc.reverse⟩ :: acc).reverse)
  | c :: rest, .norm, acc =>
      if c = '$' then scanT rest .dollar acc
      else scanT rest .norm (.lit c :: acc)
  | c :: rest, .dollar, acc =>
      if c = '$' then scanT rest .norm (.lit '$' :: acc)
      else if c = '{' then scanT rest (.brace []) acc
      else if isIdStart c then scanT rest (.named [c]) acc
      else none
  | c :: rest, .brace bacc, acc =>
      if c = '}' then
        if bacc.isEmpty then none
        else scanT rest .norm (.ph ⟨bacc.reverse⟩ :: acc)
      else if (if bacc.isEmpty then isIdStart c else isIdChar c) then
        scanT rest (.brace (c :: bacc)) acc
      else none
  | c :: rest, .named nacc, acc =>
      if isIdChar c then scanT rest (.named (c :: nacc)) acc
      else if c = '$' then scanT rest .dollar (.ph ⟨nacc.reverse⟩ :: acc)
      else scanT rest .norm (.lit c :: .ph ⟨nacc.reverse⟩ :: acc)

/-- Chunks of a template string. -/
def pyTemplateChunks (tpl : String) : Option (List Chunk) :=
  scanT tpl.toList .norm []

/-- Substitute a mapping into scanned chunks, producing the output character
list; a placeholder missing from the mapping is Python raising `KeyError`
(`none`). -/
def substChunks : List Chunk → (String → Option String) → Option (List Char)
  | [], _ => some []
  | .lit c :: rest, m => (substChunks rest m).map (c :: ·)
  | .ph n :: rest, m =>
      match m n with
      | none => none
      | some v => (substChunks rest m).map (v.toList ++ ·)

/-- `Template(tpl).substitute(mapping)`: scan, then replace every
placeholder; `none` models the raised `KeyError`/`ValueError`. -/
def pySubstitute (tpl : String) (m : String → Option String) : Option String :=
  (pyTemplateChunks tpl).bind (fun ch => (substChunks ch m).map (⟨·⟩))

/-- Names of the placeholder chunks, accumulated tail-recursively. -/
def phNames : List Chunk → List String → List String
  | [], acc => acc.reverse
  | .ph n :: rest, acc => phNames rest (n :: acc)
  | .lit _ :: rest, acc => phNames rest acc

/-- The placeholder names occurring in a template (empty if the scan
fails). -/
def placeholdersOf (tpl : String) : List String :=
  match pyTemplateChunks tpl with
  | none => []
  | some ch => phNames ch []

/-- Boolean check on a scanned template: the scan succeeds, every
placeholder name is in `allowed`, and no literal chunk is a dollar sign
(no `$$` escape occurs). -/
def chunksOkay (tpl : String) (allowed : List String) : Bool :=
  match pyTemplateChunks tpl with
  | none => false
  | some ch =>
      ch.all (fun c => match c with
        | .lit c => c != '$'
        | .ph n => allowed.contains n)

/-- Boolean check: the template scans and contains placeholder `n`. -/
def hasPh (tpl : String) (n : String) : Bool :=
  match pyTemplateChunks tpl with
  | none => false
  | some ch => ch.any (fun c => c == .ph n)

/-! ## prompt.py: the two templates, verbatim -/

/-- The template `lecture_creation_user_prompt` from `prompt.py`
(placeholders `${topic}`, `${name}`, `${audience_level}`). -/
def lecture_creation_user_prompt : String :=
  "\n" ++
  "            You are an expert educator tasked with preparing a very detailed and comprehensive lecture on the topic: \"${topic}\".\n" ++
  "            This lecture will be delivered by ${name} to an audience with expertise level: ${audience_level}.\n" ++
  "\n" ++
  "            Your output must include three distinct parts, formatted clearly using Markdown:\n" ++
  "\n" ++
  "            1. **Personalized Greeting Message:**  \n" ++
  "                - A warm, engaging introduction from ${name} to connect with the audience.\n" ++
  "\n" ++
  "            2. **Important Considerations:**  \n" ++
  "                - A bulleted list of key points and things to keep in mind specific to the audience level to effectively engage them.\n" ++
  "\n" ++
  "            3. **Detailed Lecture Content:**  \n" ++
  "                - Compose a thorough lecture that covers every crucial aspect of the topic.  \n" ++
  "                - Begin with an attention-grabbing introduction to hook the audience.  \n" ++
  "                - The lecture should be informative, well-organized, and use language suitable for the specified audience expertise.\n" ++
  "\n" ++
  "            Additional guidelines:  \n" ++
  "                - Use Markdown formatting extensively — including headings, lists, emphasis (bold, italics), and paragraphs — to enhance readability.  \n" ++
  "                - Ensure clarity and professionalism in tone while keeping the content engaging.  \n" ++
  "                - Tailor explanations to the audience\x27s knowledge level — for beginners, focus on foundational concepts; for advanced audiences, include in-depth analysis and technical details.  \n" ++
  "                - Return your complete response as a valid JSON object with keys:  \n" ++
  "                - \"greeting_message\"  \n" ++
  "                - \"important_points\" (list of strings)  \n" ++
  "                - \"lecture_content\"\n" ++
  "\n" ++
  "            Do not include any additional text outside this JSON structure.\n" ++
  "            "

/-- The template `lecture_evaluator_prompt` from `prompt.py`
(placeholders `${important_points}`, `${lecture_content}`). -/
def lecture_evaluator_prompt : String :=
  "\n" ++
  "            You are a critically acclaimed writer and linguistic expert tasked with evaluating the following lecture.\n" ++
  "            \n" ++
  "            Evaluate the lecture **strictly and exclusively** against the exact criteria listed below.  \n" ++
  "            Do **not** invent, add, remove, or rename any criteria.  \n" ++
  "            \n" ++
  "            For each criterion, assign an integer score from **1 (very poor)** to **10 (excellent)** based solely on the lecture\x27s content.  \n" ++
  "            \n" ++
  "            Your response must be a **valid JSON object** with keys exactly matching the criteria names below and integer scores as values.  \n" ++
  "            Do **not** include any explanations, commentary, or formatting outside this JSON.  \n" ++
  "            \n" ++
  "            ### Important Points to Evaluate\n" ++
  "            ${important_points}\n" ++
  "            \n" ++
  "            ## Lecture to evaluate:\n" ++
  "            ${lecture_content}\n" ++
  "            "

/-! ## main.py: the `HelloFlow` state and steps

`HelloFlow` is declared as `Flow[UserInput]`, so `self.state` is a
`UserInput` pydantic instance; since `UserInput` has `extra = "allow"`, the
steps may also assign attributes that are not declared fields
(`greeting_message`, `important_points`, `lecture_content`,
`evaluator_score_card`, `mail_drafter_crew_result`, and — on the error
paths — `greeting`). The state instance is modelled flat, every attribute
`Option`-valued (absent = never assigned / `None`). -/

structure HelloFlowState where
  name : Option String := none
  audience_level : Option AudienceLevel := none
  topic : Option String := none
  greeting_message : Option String := none
  important_points : Option (List String) := none
  lecture_content : Option String := none
  evaluator_score_card : Option (List (String × Int)) := none
  mail_drafter_crew_result : Option String := none
  greeting : Option String := none
deriving DecidableEq, Repr

/-- What a flow step returns: either the state object (success path) or a
bare error-message string (the `except` path returns `error_msg`). -/
inductive StepReturn where
  | state (s : HelloFlowState)
  | errorMsg (m : String)
deriving DecidableEq, Repr

namespace HelloFlow

/-- Step `lecture_creation` of `HelloFlow` (`main.py`). The whole `try`
body — template substitution, the LLM call, JSON parsing, the file write —
is abstracted as `body : Except String GeneratedResponse`; `.error e`
means the body raised an exception whose text is `e`. On success the step
stores the three parsed fields into the state and returns the state; on any
exception it sets `state.greeting` to `"Error calling LLM: " ++ e` and
returns that string. -/
def lecture_creation (s : HelloFlowState)
    (body : Except String GeneratedResponse) : HelloFlowState × StepReturn :=
  match body with
  | .ok parsed =>
      let s' := { s with greeting_message := some parsed.greeting_message,
                         important_points := some parsed.important_points,
                         lecture_content := some parsed.lecture_content }
      (s', .state s')
  | .error e =>
      let msg := "Error calling LLM: " ++ e
      ({ s with greeting := some msg }, .errorMsg msg)

/-- Step `lecture_evaluator` of `HelloFlow` (`main.py`), same shape: on
success it stores `parsed_response.score_card` into
`state.evaluator_score_card` and returns the state; on any exception it
writes the error string into `state.greeting` and returns the string. -/
def lecture_evaluator (s : HelloFlowState)
    (body : Except String EvaluatorResponse) : HelloFlowState × StepReturn :=
  match body with
  | .ok parsed =>
      let s' := { s with evaluator_score_card := parsed.score_card }
      (s', .state s')
  | .error e =>
      let msg := "Error calling LLM: " ++ e
      ({ s with greeting := some msg }, .errorMsg msg)

/-- Step `send_email` of `HelloFlow` (`main.py`): runs the `MailDrafter`
crew (abstracted as `body`, returning `result.raw`); on success stores the
raw result and returns the state; on any exception, as above. -/
def send_email (s : HelloFlowState)
    (body : Except String String) : HelloFlowState × StepReturn :=
  match body with
  | .ok raw =>
      let s' := { s with mail_drafter_crew_result := some raw }
      (s', .state s')
  | .error e =>
      let msg := "Error calling LLM: " ++ e
      ({ s with greeting := some msg }, .errorMsg msg)

/-- The full flow as chained by the `@start` / `@listen` decorators: each
step runs on the shared mutable state; the value a step returns is what the
framework hands to the next listener as its `state` argument. The result
collects the final state and the three step returns (`r1` is the value
`lecture_evaluator` receives, `r2` the value `send_email` receives). -/
def kickoffFlow (s0 : HelloFlowState)
    (o1 : Except String GeneratedResponse)
    (o2 : Except String EvaluatorResponse)
    (o3 : Except String String) :
    HelloFlowState × StepReturn × StepReturn × StepReturn :=
  let p1 := lecture_creation s0 o1
  let p2 := lecture_evaluator p1.1 o2
  let p3 := send_email p2.1 o3
  (p3.1, p1.2, p2.2, p3.2)

end HelloFlow

/-! ## The SendGrid mail tools

The provider call (`sg.send(message)` resp.
`sg.client.mail.send.post(request_body = mail)`) is abstracted as
`provider : Option String → Except String Unit`: it receives the API key
the code read from the environment and either succeeds or raises with an
exception text. The `SendGridAPIClient` constructor performs no key
validation, so control always reaches the send call; the events a run
emits are recorded to talk about what happened before/instead of a send. -/

/-- Events of one run of a mail tool. `configError` is included so that the
statement "a configuration error is raised before the send is attempted"
can be expressed; no code path of the repository emits it. -/
inductive SendEvent where
  | readsEnvKey (v : Option String)
  | clientInit
  | buildMail
  | sendAttempt
  | configError
deriving DecidableEq, Repr

namespace SendMail

/-- `SendMail._run` from `tools/send_email_tool.py`: reads
`SENDGRID_API_KEY` (unchecked), initializes the client, builds the mail,
attempts the send; returns `{"status": "success"}` on success and
`{"status": "failed", "error": str(e)}` if anything in the body raised.
The first component is the event trace, the second the returned dict. -/
def run (env : String → Option String)
    (provider : Option String → Except String Unit)
    (_subject _html_content : String) :
    List SendEvent × List (String × String) :=
  let key := env "SENDGRID_API_KEY"
  let events := [SendEvent.readsEnvKey key, .clientInit, .buildMail, .sendAttempt]
  match provider key with
  | .ok _ => (events, [("status", "success")])
  | .error e => (events, [("status", "failed"), ("error", e)])

end SendMail

/-- The `@function_tool send_email(body)` of `2_lab2_part3.py`: no
`try`/`except` — on success it returns `{"status": "success"}`, and an
exception raised by the provider call propagates to the caller
(`.error e`). -/
def send_email_lab2 (env : String → Option String)
    (provider : Option String → Except String Unit)
    (_body : String) : Except String (List (String × String)) :=
  match provider (env "SENDGRID_API_KEY") with
  | .ok _ => .ok [("status", "success")]
  | .error e => .error e

/-- The `@function_tool send_html_email(subject, html_body)` of
`3_lab3_part1.py`: identical error behaviour — no `try`/`except`, a raised
provider exception propagates. -/
def send_html_email (env : String → Option String)
    (provider : Option String → Except String Unit)
    (_subject _html_body : String) : Except String (List (String × String)) :=
  match provider (env "SENDGRID_API_KEY") with
  | .ok _ => .ok [("status", "success")]
  | .error e => .error e

/-! ## Module start of `4_lab4_part1.py` -/

/-- Python truthiness of `os.getenv(...)`: `None` and the empty string are
falsy. -/
def pyTruthy : Option String → Bool
  | none => false
  | some s => !s.isEmpty

/-- Module-level startup of `4_lab4_part1.py`: read `OPENAI_API_KEY`; if
`not all([openai_api_key])`, raise `ValueError` — this happens at import
time, before the `AsyncOpenAI` client exists and before any LLM call. On
success the client is created with the key (returned here as witness that
startup got past the check). -/
def lab4_startup (env : String → Option String) : Except String String :=
  let key := env "OPENAI_API_KEY"
  if pyTruthy key then .ok key.get!
  else .error "One or more required environment variables are not set."

/-! ## JSON encoding/decoding of `GeneratedResponse`

`main.py` parses the LLM text with `json.loads` and validates with
`GeneratedResponse(**...)`, and writes records back out with `json.dump`.
JSON values are modelled as a tree; decoding follows the pydantic schema
(`greeting_message` and `lecture_content` required strings,
`important_points` a list of strings defaulting to `[]`). -/

inductive Json where
  | str (s : String)
  | num (n : Int)
  | bool (b : Bool)
  | null
  | arr (xs : List Json)
  | obj (fields : List (String × Json))

/-- First binding of a key in a JSON object. -/
def jsonLookup : List (String × Json) → String → Option Json
  | [], _ => none
  | (k, v) :: rest, key => if k = key then some v else jsonLookup rest key

/-- Decode a JSON string. -/
def decodeStr : Json → Option String
  | .str s => some s
  | _ => none

/-- Decode a JSON array of strings. -/
def decodeStrList : Json → Option (List String)
  | .arr xs => xs.mapM decodeStr
  | _ => none

/-- Encoding a `GeneratedResponse` to JSON (what `json.dump` writes for the
record, key order as declared in the schema). -/
def GeneratedResponse.toJson (r : GeneratedResponse) : Json :=
  .obj [("greeting_message", .str r.greeting_message),
        ("important_points", .arr (r.important_points.map .str)),
        ("lecture_content", .str r.lecture_content)]

/-- Decoding a JSON value into a `GeneratedResponse`, following the
pydantic validation: required string fields must be present and strings,
`important_points` defaults to the empty list. -/
def GeneratedResponse.fromJson (j : Json) : Except String GeneratedResponse :=
  match j with
  | .obj fields =>
      match jsonLookup fields "greeting_message" with
      | none => .error "greeting_message: field required"
      | some jg =>
        match decodeStr jg with
        | none => .error "greeting_message: str expected"
        | some gm =>
          let ip : Except String (List String) :=
            match jsonLookup fields "important_points" with
            | none => .ok []
            | some jv =>
                match decodeStrList jv with
                | none => .error "important_points: list of str expected"
                | some l => .ok l
          match ip with
          | .error e => .error e
          | .ok ipl =>
            match jsonLookup fields "lecture_content" with
            | none => .error "lecture_content: field required"
            | some jl =>
              match decodeStr jl with
              | none => .error "lecture_content: str expected"
              | some lc =>
                  .ok { greeting_message := gm, important_points := ipl,
                        lecture_content := lc }
  | _ => .error "dict expected"

/-! ## `asyncio.gather` fan-out (`2_lab2_part2.py` and `4_lab4_part1.py`)

`asyncio.gather(*tasks)` stores the result of each task in the slot of the
task it was launched as, whatever order the tasks complete in. The scheduler is
modelled by an arbitrary completion order (a list of task indices); a
completed task writes its result into its own slot. -/

def gatherModel {α : Type} (tasks : List α) (completionOrder : List Nat) :
    List (Option α) :=
  completionOrder.foldl
    (fun out i =>
      match tasks[i]? with
      | some v => out.set i (some v)
      | none => out)
    (List.replicate tasks.length none)

/-! ## Helper lemmas -/

/-- If the mapping supplies every placeholder occurring in the chunks,
substitution succeeds. -/
theorem substChunks_isSome (ch : List Chunk) (m : String → Option String)
    (h : ∀ n, Chunk.ph n ∈ ch → (m n).isSome) :
    (substChunks ch m).isSome := by
  induction ch with
  | nil => simp [substChunks]
  | cons c rest ih =>
      cases c with
      | lit c =>
          have := ih (fun n hn => h n (List.mem_cons_of_mem _ hn))
          simp [substChunks]
          exact this
      | ph n =>
          have hm := h n (List.mem_cons_self _ _)
          cases hv : m n with
          | none => rw [hv] at hm; simp at hm
          | some v =>
              have := ih (fun n hn => h n (List.mem_cons_of_mem _ hn))
              simp [substChunks, hv]
              exact this

/-- If no literal chunk is a dollar sign and no supplied value contains a
dollar sign, the substituted output contains no dollar sign (hence no
placeholder syntax). -/
theorem substChunks_no_dollar (ch : List Chunk) (m : String → Option String)
    (hlit : ∀ c, Chunk.lit c ∈ ch → c ≠ '$')
    (hval : ∀ n v, m n = some v → '$' ∉ v.toList) :
    ∀ cs, substChunks ch m = some cs → '$' ∉ cs := by
  induction ch with
  | nil =>
      intro cs hcs
      simp [substChunks] at hcs
      subst hcs
      simp
  | cons c rest ih =>
      intro cs hcs
      cases c with
      | lit c =>
          simp [substChunks] at hcs
          obtain ⟨cs', hcs', rfl⟩ := hcs
          have hc := hlit c (List.mem_cons_self _ _)
          have hrest := ih (fun c hc => hlit c (List.mem_cons_of_mem _ hc)) cs' hcs'
          simp [List.mem_cons]
          exact ⟨fun h => hc h.symm, hrest⟩
      | ph n =>
          simp [substChunks] at hcs
          cases hv : m n with
          | none => rw [hv] at hcs; simp at hcs
          | some v =>
              rw [hv] at hcs
              simp at hcs
              obtain ⟨cs', hcs', rfl⟩ := hcs
              have hrest := ih (fun c hc => hlit c (List.mem_cons_of_mem _ hc)) cs' hcs'
              have hvd := hval n v hv
              simp [List.mem_append]
              exact ⟨hvd, hrest⟩

/-- A placeholder missing from the mapping makes substitution fail
(Python raises `KeyError`). -/
theorem substChunks_missing (ch : List Chunk) (m : String → Option String)
    (n : String) (hmem : Chunk.ph n ∈ ch) (hm : m n = none) :
    substChunks ch m = none := by
  induction ch with
  | nil => simp at hmem
  | cons c rest ih =>
      cases c with
      | lit c =>
          have : Chunk.ph n ∈ rest := by
            rcases List.mem_cons.mp hmem with h | h
            · exact absurd h (by simp)
            · exact h
          simp [substChunks, ih this]
      | ph n' =>
          rcases List.mem_cons.mp hmem with h | h
          · cases h
            simp [substChunks, hm]
          · cases hv : m n' with
            | none => simp [substChunks, hv]
            | some v => simp [substChunks, hv, ih h]

/-- Unfolding a successful `chunksOkay` check. -/
theorem chunksOkay_spec {tpl : String} {allowed : List String}
    (h : chunksOkay tpl allowed = true) :
    ∃ ch, pyTemplateChunks tpl = some ch ∧
      (∀ c, Chunk.lit c ∈ ch → c ≠ '$') ∧
      (∀ n, Chunk.ph n ∈ ch → n ∈ allowed) := by
  unfold chunksOkay at h
  cases hch : pyTemplateChunks tpl with
  | none => rw [hch] at h; simp at h
  | some ch =>
      rw [hch] at h
      refine ⟨ch, rfl, ?_, ?_⟩
      · intro c hc
        have := List.all_eq_true.mp h _ hc
        simpa using this
      · intro n hn
        have := List.all_eq_true.mp h _ hn
        simpa using this

/-- Unfolding a successful `hasPh` check. -/
theorem hasPh_spec {tpl : String} {n : String} (h : hasPh tpl n = true) :
    ∃ ch, pyTemplateChunks tpl = some ch ∧ Chunk.ph n ∈ ch := by
  unfold hasPh at h
  cases hch : pyTemplateChunks tpl with
  | none => rw [hch] at h; simp at h
  | some ch =>
      rw [hch] at h
      obtain ⟨c, hc, hcn⟩ := List.any_eq_true.mp h
      have : c = Chunk.ph n := by simpa using hcn
      exact ⟨ch, rfl, this ▸ hc⟩

set_option maxRecDepth 20000

/-- Scan facts about `lecture_creation_user_prompt`: the scan succeeds, its
placeholders are among `topic`, `name`, `audience_level`, and no literal
chunk is a dollar sign. -/
theorem creation_chunksOkay :
    chunksOkay lecture_creation_user_prompt ["topic", "name", "audience_level"] = true := by
  decide

/-- Scan facts about `lecture_evaluator_prompt`. -/
theorem evaluator_chunksOkay :
    chunksOkay lecture_evaluator_prompt ["important_points", "lecture_content"] = true := by
  decide

/-- The creation template does contain the placeholder `topic`. -/
theorem creation_hasPh_topic :
    hasPh lecture_creation_user_prompt "topic" = true := by
  decide

/-- The evaluator template does contain the placeholder `important_points`. -/
theorem evaluator_hasPh_important_points :
    hasPh lecture_evaluator_prompt "important_points" = true := by
  decide

/-! ## Claim theorems -/

/-- C1: whenever the body of a `HelloFlow` step (`lecture_creation`,
`lecture_evaluator`, `send_email`) raises an exception with text `e`, the
step returns the bare string `"Error calling LLM: " ++ e` (not the state
object), stores the same string into the state attribute `greeting`, and in
the chained flow that string is exactly the value handed to the next
listener, with no retry or escalation. -/
theorem c1_step_error_handling (s : HelloFlowState) (e : String) :
    (HelloFlow.lecture_creation s (.error e)).2
        = .errorMsg ("Error calling LLM: " ++ e) ∧
    (HelloFlow.lecture_creation s (.error e)).1.greeting
        = some ("Error calling LLM: " ++ e) ∧
    (HelloFlow.lecture_evaluator s (.error e)).2
        = .errorMsg ("Error calling LLM: " ++ e) ∧
    (HelloFlow.lecture_evaluator s (.error e)).1.greeting
        = some ("Error calling LLM: " ++ e) ∧
    (HelloFlow.send_email s (.error e)).2
        = .errorMsg ("Error calling LLM: " ++ e) ∧
    (HelloFlow.send_email s (.error e)).1.greeting
        = some ("Error calling LLM: " ++ e) ∧
    (∀ o2 o3, (HelloFlow.kickoffFlow s (.error e) o2 o3).2.1
        = .errorMsg ("Error calling LLM: " ++ e)) := by
  exact ⟨rfl, rfl, rfl, rfl, rfl, rfl, fun o2 o3 => rfl⟩

/-- C2 counterexample: the claim quantifies over every email-sending tool,
but `send_html_email` (3_lab3_part1.py) has no `try`/`except`: a provider
failure propagates as an exception instead of yielding the record
`{"status": "failed", "error": e}`. -/
theorem c2_counterexample :
    send_html_email (fun _ => some "SG.key") (fun _ => .error "HTTP Error 401: Unauthorized")
        "Test subject" "<p>hi</p>"
      = .error "HTTP Error 401: Unauthorized" ∧
    send_html_email (fun _ => some "SG.key") (fun _ => .error "HTTP Error 401: Unauthorized")
        "Test subject" "<p>hi</p>"
      ≠ .ok [("status", "failed"), ("error", "HTTP Error 401: Unauthorized")] := by
  constructor
  · rfl
  · intro h
    simp [send_html_email] at h

/-- C2 amended: `SendMail._run` maps a provider failure with exception text
`e` to `{"status": "failed", "error": e}` and a success to exactly
`{"status": "success"}` with no `error` key; the function tools
`send_email` (2_lab2_part3.py) and `send_html_email` (3_lab3_part1.py)
return `{"status": "success"}` on success but propagate the provider
exception on failure instead of returning a failed-status record. -/
theorem c2_amended_status_mapping (env : String → Option String)
    (subject html body e : String) :
    (SendMail.run env (fun _ => .error e) subject html).2
        = [("status", "failed"), ("error", e)] ∧
    (SendMail.run env (fun _ => .ok ()) subject html).2
        = [("status", "success")] ∧
    ((SendMail.run env (fun _ => .ok ()) subject html).2.lookup "error" = none) ∧
    send_email_lab2 env (fun _ => .ok ()) body = .ok [("status", "success")] ∧
    send_email_lab2 env (fun _ => .error e) body = .error e ∧
    send_html_email env (fun _ => .ok ()) subject html
        = .ok [("status", "success")] ∧
    send_html_email env (fun _ => .error e) subject html = .error e := by
  exact ⟨rfl, rfl, rfl, rfl, rfl, rfl, rfl⟩

/-- C3: for the two repository templates, substitution with a value for
every placeholder succeeds, and the output contains no placeholder syntax
left from the template (formally: no dollar sign at all, as long as the
supplied values contain none — every dollar of the template was consumed as
a placeholder); substitution with a missing key fails (raises `KeyError`)
rather than returning a partially filled string. -/
theorem c3_template_substitution :
    (∀ m : String → Option String,
        (∀ n, n ∈ ["topic", "name", "audience_level"] → (m n).isSome) →
        ∃ out, pySubstitute lecture_creation_user_prompt m = some out ∧
          ((∀ n v, m n = some v → '$' ∉ v.toList) → '$' ∉ out.toList)) ∧
    (∀ m : String → Option String,
        (∀ n, n ∈ ["important_points", "lecture_content"] → (m n).isSome) →
        ∃ out, pySubstitute lecture_evaluator_prompt m = some out ∧
          ((∀ n v, m n = some v → '$' ∉ v.toList) → '$' ∉ out.toList)) ∧
    (∀ m : String → Option String, m "topic" = none →
        pySubstitute lecture_creation_user_prompt m = none) ∧
    (∀ m : String → Option String, m "important_points" = none →
        pySubstitute lecture_evaluator_prompt m = none) := by
  refine ⟨?_, ?_, ?_, ?_⟩
  · intro m hm
    obtain ⟨ch, hch, hlit, hph⟩ := chunksOkay_spec creation_chunksOkay
    have hs : (substChunks ch m).isSome :=
      substChunks_isSome ch m (fun n hn => hm n (hph n hn))
    obtain ⟨cs, hcs⟩ := Option.isSome_iff_exists.mp hs
    refine ⟨⟨cs⟩, ?_, ?_⟩
    · simp [pySubstitute, hch, hcs]
    · intro hval
      exact substChunks_no_dollar ch m hlit hval cs hcs
  · intro m hm
    obtain ⟨ch, hch, hlit, hph⟩ := chunksOkay_spec evaluator_chunksOkay
    have hs : (substChunks ch m).isSome :=
      substChunks_isSome ch m (fun n hn => hm n (hph n hn))
    obtain ⟨cs, hcs⟩ := Option.isSome_iff_exists.mp hs
    refine ⟨⟨cs⟩, ?_, ?_⟩
    · simp [pySubstitute, hch, hcs]
    · intro hval
      exact substChunks_no_dollar ch m hlit hval cs hcs
  · intro m hm
    obtain ⟨ch, hch, hmem⟩ := hasPh_spec creation_hasPh_topic
    have := substChunks_missing ch m "topic" hmem hm
    simp [pySubstitute, hch, this]
  · intro m hm
    obtain ⟨ch, hch, hmem⟩ := hasPh_spec evaluator_hasPh_important_points
    have := substChunks_missing ch m "important_points" hmem hm
    simp [pySubstitute, hch, this]

/-- A full value assignment for the creation template, used to witness C3. -/
def creationFullMapping : String → Option String := fun n =>
  if n = "topic" then some "Generative AI"
  else if n = "name" then some "Siddharth"
  else if n = "audience_level" then some "beginner"
  else none

/-- C3 witness: substituting a full mapping into the creation template
succeeds. -/
theorem c3_template_substitution_witness :
    (pySubstitute lecture_creation_user_prompt creationFullMapping).isSome = true := by
  obtain ⟨h1, -, -, -⟩ := c3_template_substitution
  obtain ⟨out, hout, -⟩ := h1 creationFullMapping (by intro n hn; fin_cases hn <;> decide)
  simp [hout]

/-- Helper: `AudienceLevel(s)` succeeds exactly on the three member
values. -/
theorem audienceLevelOfValue_eq_none_iff (s : String) :
    audienceLevelOfValue s = none ↔
      s ∉ (["beginner", "intermediate", "advanced"] : List String) := by
  by_cases h1 : s = "beginner"
  · subst h1
    simp [audienceLevelOfValue]
  · by_cases h2 : s = "intermediate"
    · subst h2
      simp [audienceLevelOfValue]
    · by_cases h3 : s = "advanced"
      · subst h3
        simp [audienceLevelOfValue]
      · simp [audienceLevelOfValue, h1, h2, h3]

/-- C4 counterexample: the entered string `"Beginner"` is outside the set
`{"beginner", "intermediate", "advanced"}`, yet the kickoff loop accepts it
(the code lowercases and strips the input before validation), so it is not
re-prompted. -/
theorem c4_counterexample :
    ("Beginner" ∉ (["beginner", "intermediate", "advanced"] : List String)) ∧
    audienceLoop ["Beginner"] = some AudienceLevel.beginner := by
  decide

/-- C4 amended: after normalization by `.strip().lower()`, every entered
string whose normalized form is outside `{"beginner", "intermediate",
"advanced"}` is rejected and the loop re-prompts on the remaining input;
every entered string whose normalized form is in the set is accepted and
maps 1:1 to the corresponding `AudienceLevel` member. -/
theorem c4_audience_validation (s : String) (rest : List String) :
    (pyLower (pyStrip s) ∉ (["beginner", "intermediate", "advanced"] : List String) →
        audienceLoop (s :: rest) = audienceLoop rest) ∧
    (∀ l : AudienceLevel, pyLower (pyStrip s) = AudienceLevel.value l →
        audienceLoop (s :: rest) = some l) ∧
    (∀ l : AudienceLevel, audienceLevelOfValue (AudienceLevel.value l) = some l) ∧
    (∀ l l' : AudienceLevel, AudienceLevel.value l = AudienceLevel.value l' → l = l') := by
  refine ⟨?_, ?_, ?_, ?_⟩
  · intro hnot
    have h := (audienceLevelOfValue_eq_none_iff (pyLower (pyStrip s))).mpr hnot
    simp [audienceLoop, h]
  · intro l hl
    have h : audienceLevelOfValue (pyLower (pyStrip s)) = some l := by
      rw [hl]
      cases l <;> rfl
    simp [audienceLoop, h]
  · intro l
    cases l <;> rfl
  · intro l l' h
    cases l <;> cases l' <;> simp_all [AudienceLevel.value]

/-- C4 witness: an input normalizing to `advanced` is accepted on the first
prompt. -/
theorem c4_audience_validation_witness :
    audienceLoop ["  ADVANCED "] = some AudienceLevel.advanced := by
  exact (c4_audience_validation "  ADVANCED " []).2.1 .advanced (by decide)

/-- C5: a successfully constructed `EvaluatorResponse` with a present
`score_card` only holds scores in `[1, 10]`; constructing from a dictionary
holding any score outside `[1, 10]` fails validation. -/
theorem c5_score_card_range :
    (∀ sc r, mkEvaluatorResponse sc = .ok r →
        ∀ m, r.score_card = some m → ∀ kv ∈ m, 1 ≤ kv.2 ∧ kv.2 ≤ 10) ∧
    (∀ m kv, kv ∈ m → (kv.2 < 1 ∨ 10 < kv.2) →
        ∃ err, mkEvaluatorResponse (some m) = .error err) := by
  constructor
  · intro sc r hok m hm kv hkv
    cases sc with
    | none =>
        simp [mkEvaluatorResponse] at hok
        rw [← hok] at hm
        simp at hm
    | some m' =>
        by_cases hall : m'.all (fun kv => constrainedIntOk kv.2) = true
        · simp [mkEvaluatorResponse, hall] at hok
          rw [← hok] at hm
          simp at hm
          subst hm
          have := List.all_eq_true.mp hall kv hkv
          simp [constrainedIntOk] at this
          exact_mod_cast this
        · simp [mkEvaluatorResponse, hall] at hok
  · intro m kv hkv hout
    by_cases hall : m.all (fun kv => constrainedIntOk kv.2) = true
    · exfalso
      have := List.all_eq_true.mp hall kv hkv
      simp [constrainedIntOk] at this
      rcases hout with h | h
      · exact absurd this.1 (by omega)
      · exact absurd this.2 (by omega)
    · refine ⟨"ValidationError: score out of range 1..10", ?_⟩
      simp [mkEvaluatorResponse, hall]

/-- C5 witness: a score of 5 is accepted and lies in range; a score of 11
fails validation. -/
theorem c5_score_card_range_witness :
    (1 ≤ (5 : Int) ∧ (5 : Int) ≤ 10) ∧
    ∃ err, mkEvaluatorResponse (some [("clarity", 11)]) = .error err := by
  obtain ⟨h1, h2⟩ := c5_score_card_range
  constructor
  · exact h1 (some [("clarity", 5)]) { score_card := some [("clarity", 5)] }
      rfl [("clarity", 5)] rfl ("clarity", 5) (by simp)
  · exact h2 [("clarity", 11)] ("clarity", 11) (by simp) (Or.inr (by decide))

/-- C6 counterexample: with `SENDGRID_API_KEY` absent from the environment,
`SendMail._run` raises no configuration error — it proceeds all the way to
attempting the send, and the missing key surfaces only as a provider
failure, mapped to the failed-status dict. -/
theorem c6_counterexample :
    (SendEvent.sendAttempt ∈ (SendMail.run (fun _ => none)
        (fun k => match k with
          | none => .error "HTTP Error 401: Unauthorized"
          | some _ => .ok ()) "s" "b").1) ∧
    (SendEvent.configError ∉ (SendMail.run (fun _ => none)
        (fun k => match k with
          | none => .error "HTTP Error 401: Unauthorized"
          | some _ => .ok ()) "s" "b").1) ∧
    (SendMail.run (fun _ => none)
        (fun k => match k with
          | none => .error "HTTP Error 401: Unauthorized"
          | some _ => .ok ()) "s" "b").2
      = [("status", "failed"), ("error", "HTTP Error 401: Unauthorized")] := by
  refine ⟨?_, ?_, rfl⟩ <;> decide

/-- C6 amended: a missing (or empty) `OPENAI_API_KEY` raises the
configuration error at module start of `4_lab4_part1.py`, before the LLM
client exists; `SENDGRID_API_KEY` however is never checked — every run of
`SendMail._run` reaches the send attempt and raises no configuration
error, whatever the environment holds. -/
theorem c6_api_key_checks :
    (∀ env : String → Option String, pyTruthy (env "OPENAI_API_KEY") = false →
        lab4_startup env
          = .error "One or more required environment variables are not set.") ∧
    (∀ (env : String → Option String) (provider : Option String → Except String Unit)
        (subject html : String),
        SendEvent.sendAttempt ∈ (SendMail.run env provider subject html).1 ∧
        SendEvent.configError ∉ (SendMail.run env provider subject html).1) := by
  constructor
  · intro env h
    simp [lab4_startup, h]
  · intro env provider subject html
    cases hp : provider (env "SENDGRID_API_KEY") <;> simp [SendMail.run, hp]

/-- C6 witness: an environment with no `OPENAI_API_KEY` makes the
`4_lab4_part1.py` startup raise the configuration error. -/
theorem c6_api_key_checks_witness :
    lab4_startup (fun _ => none)
      = .error "One or more required environment variables are not set." := by
  exact c6_api_key_checks.1 (fun _ => none) rfl

/-- C7 counterexample: the flow state is a constructed `UserInput` record
instance, and the `lecture_creation` step changes its fields after
construction, so not every data entity record of the repository is
immutable. -/
theorem c7_counterexample :
    (HelloFlow.lecture_creation
        { name := some "Siddharth", audience_level := some .beginner,
          topic := some "AI" }
        (.ok { greeting_message := "Hello Siddharth",
               important_points := ["keep it simple"],
               lecture_content := "AI basics" })).1
      ≠ { name := some "Siddharth", audience_level := some .beginner,
          topic := some "AI" } := by
  decide

/-- C7 amended: records parsed from LLM responses are only read after
construction, but the `UserInput`-typed flow state is mutated in place by
every step: each success path overwrites its designated state attributes
with exactly the fields of the parsed record, while the user-supplied fields
`name`, `audience_level`, `topic` (and `greeting`) stay unchanged. -/
theorem c7_state_mutation (s : HelloFlowState) (r : GeneratedResponse)
    (ev : EvaluatorResponse) (raw : String) :
    ((HelloFlow.lecture_creation s (.ok r)).1.name = s.name ∧
     (HelloFlow.lecture_creation s (.ok r)).1.audience_level = s.audience_level ∧
     (HelloFlow.lecture_creation s (.ok r)).1.topic = s.topic ∧
     (HelloFlow.lecture_creation s (.ok r)).1.greeting = s.greeting ∧
     (HelloFlow.lecture_creation s (.ok r)).1.greeting_message
        = some r.greeting_message ∧
     (HelloFlow.lecture_creation s (.ok r)).1.important_points
        = some r.important_points ∧
     (HelloFlow.lecture_creation s (.ok r)).1.lecture_content
        = some r.lecture_content) ∧
    ((HelloFlow.lecture_evaluator s (.ok ev)).1.name = s.name ∧
     (HelloFlow.lecture_evaluator s (.ok ev)).1.topic = s.topic ∧
     (HelloFlow.lecture_evaluator s (.ok ev)).1.evaluator_score_card
        = ev.score_card) ∧
    ((HelloFlow.send_email s (.ok raw)).1.name = s.name ∧
     (HelloFlow.send_email s (.ok raw)).1.topic = s.topic ∧
     (HelloFlow.send_email s (.ok raw)).1.mail_drafter_crew_result
        = some raw) := by
  exact ⟨⟨rfl, rfl, rfl, rfl, rfl, rfl, rfl⟩, ⟨rfl, rfl, rfl⟩, ⟨rfl, rfl, rfl⟩⟩

/-- Helper: decoding a JSON array built from strings gives those strings
back. -/
theorem decodeStrList_map_str (l : List String) :
    decodeStrList (Json.arr (l.map Json.str)) = some l := by
  induction l with
  | nil => rfl
  | cons a t ih =>
      have ih' : (t.map Json.str).mapM decodeStr = some t := by
        simpa [decodeStrList] using ih
      simp only [decodeStrList, List.map_cons, List.mapM_cons, ih', decodeStr]
      rfl

/-- C8: encoding a `GeneratedResponse` to JSON and decoding the JSON back
yields the identical record. -/
theorem c8_generated_response_roundtrip (r : GeneratedResponse) :
    GeneratedResponse.fromJson (GeneratedResponse.toJson r) = .ok r := by
  cases r with
  | mk gm ip lc =>
      have h := decodeStrList_map_str ip
      simp [GeneratedResponse.toJson, GeneratedResponse.fromJson, jsonLookup,
            decodeStr, h]


/-- Helper: after the scheduler has processed a completion order, slot `j`
holds the result of task `j` exactly if task `j` completed (and `j` is a real
slot); otherwise the slot is untouched. -/
theorem gather_foldl_getElem? {α : Type} (tasks : List α) :
    ∀ (order : List Nat) (init : List (Option α)),
      init.length = tasks.length → ∀ j : Nat,
      ((order.foldl (fun out i =>
          match tasks[i]? with
          | some v => out.set i (some v)
          | none => out) init)[j]?)
        = if j ∈ order ∧ j < tasks.length then tasks[j]?.map some
          else init[j]? := by
  intro order
  induction order with
  | nil =>
      intro init hlen j
      simp
  | cons i rest ih =>
      intro init hlen j
      rw [List.foldl_cons]
      have hlen' : (match tasks[i]? with
          | some v => init.set i (some v)
          | none => init).length = tasks.length := by
        cases tasks[i]? <;> simp [hlen]
      rw [ih _ hlen' j]
      by_cases hj : j ∈ rest ∧ j < tasks.length
      · simp [hj, List.mem_cons]
      · simp only [hj, if_false]
        by_cases hij : i = j
        · subst hij
          cases ht : tasks[i]? with
          | none =>
              have hge : tasks.length ≤ i := List.getElem?_eq_none_iff.mp ht
              have hcond : ¬ (i ∈ i :: rest ∧ i < tasks.length) := by
                intro hcon
                omega
              simp only [ht, if_neg hcond]
          | some v =>
              have hlt : i < tasks.length := by
                by_contra hge
                rw [List.getElem?_eq_none (by omega)] at ht
                cases ht
              have hset : ((init.set i (some v))[i]?) = some (some v) :=
                List.getElem?_set_eq_of_lt _ (by omega)
              have hcond : i ∈ i :: rest ∧ i < tasks.length :=
                ⟨List.mem_cons_self _ _, hlt⟩
              simp [ht, hset, hcond]
        · have hcond : ¬ (j ∈ i :: rest ∧ j < tasks.length) := by
            intro hcon
            rcases hcon with ⟨hmem, hlt⟩
            rcases List.mem_cons.mp hmem with h | h
            · exact hij h.symm
            · exact hj ⟨h, hlt⟩
          have hset : (match tasks[i]? with
              | some v => init.set i (some v)
              | none => init)[j]? = init[j]? := by
            cases tasks[i]? with
            | none => rfl
            | some v => exact List.getElem?_set_ne hij
          simp only [hcond, if_false, hset]

/-- C9: if every launched task index appears in the completion order (all
tasks complete, in whatever order), the gathered results list places the
result of the i-th launched task at index i — it equals the launch-order
results list. -/
theorem c9_gather_preserves_launch_order {α : Type} (tasks : List α)
    (order : List Nat) (hcov : ∀ j, j < tasks.length → j ∈ order) :
    gatherModel tasks order = tasks.map some := by
  apply List.ext_getElem?
  intro j
  rw [gatherModel, gather_foldl_getElem? tasks order _ (by simp) j]
  by_cases hj : j < tasks.length
  · simp [hcov j hj, hj, List.getElem?_map]
  · have h1 : tasks[j]? = none := List.getElem?_eq_none (by omega)
    have h2 : (tasks.map some)[j]? = none := List.getElem?_eq_none (by simpa using by omega)
    simp [hj, h1, h2, List.getElem?_replicate]

/-- C9 witness: three sales-draft calls completing in the order third,
first, second still collect in launch order. -/
theorem c9_gather_preserves_launch_order_witness :
    gatherModel ["professional draft", "engaging draft", "busy draft"] [2, 0, 1]
      = [some "professional draft", some "engaging draft", some "busy draft"] := by
  have h := c9_gather_preserves_launch_order
      ["professional draft", "engaging draft", "busy draft"] [2, 0, 1]
      (by decide)
  simpa using h

/-- C10: `SendMail._run` is total at its interface: whatever the provider
call does, the returned dict has a `status` key equal to `"success"` or
`"failed"`; every exception raised inside the body (text `e`) is caught and
converted into the failed-status dict rather than propagated. -/
theorem c10_sendmail_total (env : String → Option String)
    (provider : Option String → Except String Unit) (subject html : String) :
    ((SendMail.run env provider subject html).2.lookup "status" = some "success" ∨
     (SendMail.run env provider subject html).2.lookup "status" = some "failed") ∧
    (∀ e, provider (env "SENDGRID_API_KEY") = .error e →
        (SendMail.run env provider subject html).2
          = [("status", "failed"), ("error", e)]) ∧
    (∀ u, provider (env "SENDGRID_API_KEY") = .ok u →
        (SendMail.run env provider subject html).2 = [("status", "success")]) := by
  cases hp : provider (env "SENDGRID_API_KEY") with
  | ok u =>
      refine ⟨Or.inl ?_, ?_, ?_⟩
      · simp [SendMail.run, hp, List.lookup]
      · intro e he
        simp at he
      · intro u' _
        simp [SendMail.run, hp]
  | error e =>
      refine ⟨Or.inr ?_, ?_, ?_⟩
      · simp [SendMail.run, hp, List.lookup]
      · intro e' he
        cases he
        simp [SendMail.run, hp]
      · intro u hu
        simp at hu

/-- C10 witness: a raised provider exception is converted to the failed
dict. -/
theorem c10_sendmail_total_witness :
    (SendMail.run (fun _ => some "SG.key") (fun _ => .error "boom")
        "subject" "<b>hello</b>").2
      = [("status", "failed"), ("error", "boom")] := by
  exact (c10_sendmail_total (fun _ => some "SG.key") (fun _ => .error "boom")
      "subject" "<b>hello</b>").2.1 "boom" rfl
